import Mathlib

/-!
Verification of the Speak-Note reminder web client against its
natural-language specification.  The definitions below are shallow
embeddings of the client's TypeScript logic: confidence scores are
rationals, wall-clock instants are epoch milliseconds (integers), and
the React state containers become explicit state-passing functions.
-/

namespace SpeakNote

/-- A backend scheduling suggestion, as returned by the
`/analyze/text`, `/analyze/voice` and `/analyze/image` endpoints:
`{ detected_date?, detected_time?, suggested_title?, confidence }`. -/
structure SchedulingInfo where
  detected_date : Option String
  detected_time : Option String
  suggested_title : Option String
  confidence : ℚ
  deriving Repr, DecidableEq

/-! ## Reminder-call gating per analysis path

`TextInput.analyzeTextAndHandleReminder` (ImageInput.tsx line 437):
`if (scheduling_info && scheduling_info.confidence >= 0.0) { ... create/update ... }`.

`VoiceInput.processAudio` (VoiceInput.tsx line 102):
`if (scheduling_info && scheduling_info.confidence > 0.3) { ... createReminder ... }`.

`ImageInput.processImage` (ImageInput.tsx line 125):
`if (scheduling_info && scheduling_info.confidence > 0.3) { onSchedulingDetected(...) }`.
-/

/-- Whether the text path issues a reminder create/update call for the
given (possibly absent) scheduling suggestion. -/
def textIssuesReminderCall (si : Option SchedulingInfo) : Bool :=
  match si with
  | none => false
  | some s => decide ((0 : ℚ) ≤ s.confidence)

/-- Whether the voice path issues a reminder-creation call. -/
def voiceIssuesReminderCall (si : Option SchedulingInfo) : Bool :=
  match si with
  | none => false
  | some s => decide ((3 / 10 : ℚ) < s.confidence)

/-- Whether the image path propagates the scheduling suggestion
(`onSchedulingDetected`). -/
def imageIssuesSchedulingCall (si : Option SchedulingInfo) : Bool :=
  match si with
  | none => false
  | some s => decide ((3 / 10 : ℚ) < s.confidence)

/-! ## Countdown formatter (`getCountdown`, ReminderList) -/

/-- Zero left-pad a number's decimal string to two characters, as
`n.toString().padStart(2, '0')` does. -/
def padTwo (n : ℕ) : String :=
  if n < 10 then "0" ++ toString n else toString n

/-- The countdown formatter `getCountdown(scheduledFor)`: compare the target instant with the
current instant (both in epoch milliseconds) and format the remaining
time as `HH:MM:SS left`, or `Due!` once the difference is `≤ 0`. -/
def getCountdown (nowMs targetMs : ℤ) : String :=
  let diff : ℤ := targetMs - nowMs
  if diff ≤ 0 then "Due!"
  else
    let d : ℕ := diff.toNat
    let hours : ℕ := d / (1000 * 60 * 60)
    let minutes : ℕ := (d % (1000 * 60 * 60)) / (1000 * 60)
    let seconds : ℕ := (d % (1000 * 60)) / 1000
    padTwo hours ++ ":" ++ padTwo minutes ++ ":" ++ padTwo seconds ++ " left"

/-! ## Reminder records and list filtering (`ReminderList.filteredReminders`) -/

/-- A reminder record as held in the client's cached collection
(`ReminderContext`).  `scheduled_for` and `created_at` are modelled as
epoch milliseconds of the parsed timestamps. -/
structure Reminder where
  id : ℕ
  title : String
  description : Option String
  scheduled_for : ℤ
  created_at : ℤ
  is_completed : Bool
  is_important : Bool
  deriving Repr, DecidableEq

/-- The user-selected filter of `ReminderList`. -/
inductive RFilter
  | all
  | upcoming
  | completed
  | important
  deriving Repr, DecidableEq

/-- The filtering stage of `filteredReminders`: `upcoming` keeps
reminders that are not completed and strictly in the future,
`completed` keeps completed ones, `important` keeps important ones. -/
def filterReminders (f : RFilter) (nowMs : ℤ) (rs : List Reminder) : List Reminder :=
  rs.filter fun r =>
    match f with
    | .upcoming => !r.is_completed && decide (nowMs < r.scheduled_for)
    | .completed => r.is_completed
    | .important => r.is_important
    | .all => true

/-! ## Debounced text-analysis workflow (`TextInput`)

The `useEffect` with dependencies `[text, priority, analyzeTextAndHandleReminder]`
re-runs on every edit: React first runs the previous effect's cleanup
(`clearTimeout(timer)`), then, when `text.length > 10`, schedules a fresh
12-second timer whose callback analyzes the text captured at scheduling
time.  When the timer fires, `analyzeTextAndHandleReminder` returns early
on an all-whitespace buffer (`if (!text.trim()) return`) and otherwise
issues the request.  The explicit Analyze button clears any pending timer
and calls `analyzeTextAndHandleReminder` immediately. -/

/-- State of the debounced text workflow: the buffer, the pending timer
(carrying the text captured when it was scheduled), and the contents
sent to the analysis endpoint automatically resp. via the button. -/
structure DebounceState where
  text : String
  timer : Option String
  autoSent : List String
  manualSent : List String
  deriving Repr, DecidableEq

/-- Events driving the debounced workflow: a buffer edit, the pending
timer firing after the 12-second quiet period, and a press of the
explicit Analyze button. -/
inductive DebEvent
  | edit (s : String)
  | fire
  | analyzeNow
  deriving Repr, DecidableEq

/-- One step of the debounced workflow. -/
def debStep (σ : DebounceState) (e : DebEvent) : DebounceState :=
  match e with
  | .edit s =>
      { σ with
        text := s
        timer := if 10 < s.length then some s else none }
  | .fire =>
      match σ.timer with
      | none => σ
      | some t =>
          { σ with
            timer := none
            autoSent := if t.trim = "" then σ.autoSent else t :: σ.autoSent }
  | .analyzeNow =>
      { σ with
        timer := none
        manualSent := if σ.text.trim = "" then σ.manualSent else σ.text :: σ.manualSent }

/-- The initial state of the workflow: empty buffer, no timer. -/
def debInit : DebounceState := ⟨"", none, [], []⟩

/-- Run the workflow from a given state over a list of events. -/
def debRunFrom (σ : DebounceState) (es : List DebEvent) : DebounceState :=
  es.foldl debStep σ

/-- Run the workflow from the initial state. -/
def debRun (es : List DebEvent) : DebounceState :=
  debRunFrom debInit es

/-! ## Time-string parsing and timestamp combination (`TextInput`) -/

/-- Numeric value of a decimal digit character. -/
def digitVal (c : Char) : ℕ := c.toNat - '0'.toNat

/-- Drop characters up to (but not including) the first decimal digit;
this is where the first match of `/(\d{1,2})(?::(\d{2}))?\s*(am|pm)?/i`
begins, its leading element being the only mandatory one. -/
def dropToFirstDigit : List Char → List Char
  | [] => []
  | c :: cs => if c.isDigit then c :: cs else dropToFirstDigit cs

/-- The helper `parseTimeString(timeStr)`: extract `(hours, minutes)` from the
first match of `/(\d{1,2})(?::(\d{2}))?\s*(am|pm)?/i`, returning
`(0, 0)` when the string is empty or contains no digit; a trailing
`pm` adds 12 to hours below 12 and `am` maps hour 12 to 0. -/
def parseTimeString (timeStr : String) : ℕ × ℕ :=
  match dropToFirstDigit timeStr.toList with
  | [] => (0, 0)
  | d1 :: rest0 =>
    let hr : ℕ × List Char :=
      match rest0 with
      | d2 :: rest2 =>
          if d2.isDigit then (digitVal d1 * 10 + digitVal d2, rest2)
          else (digitVal d1, d2 :: rest2)
      | [] => (digitVal d1, [])
    let hours0 := hr.1
    let mn : ℕ × List Char :=
      match hr.2 with
      | ':' :: a :: b :: rest3 =>
          if a.isDigit && b.isDigit then (digitVal a * 10 + digitVal b, rest3)
          else (0, ':' :: a :: b :: rest3)
      | r => (0, r)
    let minutes := mn.1
    let rest := mn.2.dropWhile Char.isWhitespace
    let modifier : Option Bool :=
      match rest with
      | c1 :: c2 :: _ =>
          if c1.toLower = 'p' ∧ c2.toLower = 'm' then some true
          else if c1.toLower = 'a' ∧ c2.toLower = 'm' then some false
          else none
      | _ => none
    let hours :=
      match modifier with
      | some true => if hours0 < 12 then hours0 + 12 else hours0
      | some false => if hours0 = 12 then 0 else hours0
      | none => hours0
    (hours, minutes)

/-- A JavaScript `Date` value: either the Invalid Date (`NaN`) or an
instant, given by a local-calendar day index and the millisecond
offset within that day. -/
inductive JSDate
  | invalid
  | valid (day : ℤ) (msInDay : ℕ)
  deriving Repr, DecidableEq

/-- The JavaScript mutation `date.setHours(h, m, 0, 0)`: overwrite the time-of-day, carrying
overflow into following days as JavaScript normalisation does; an
Invalid Date stays invalid. -/
def setHours : JSDate → ℕ → ℕ → JSDate
  | .invalid, _, _ => .invalid
  | .valid day _, h, m =>
      let total : ℕ := (h * 60 + m) * 60000
      .valid (day + (total / 86400000 : ℕ)) (total % 86400000)

/-- The timestamp-combination logic of `analyzeTextAndHandleReminder`
(ImageInput.tsx lines 438-445): start from the parsed detected date
(or now), overwrite the time-of-day from the detected time when
present, and fall back to now when the result is an Invalid Date.
`jsParseDate` abstracts the platform's `new Date(string)` parser;
`(nowDay, nowMs)` is the instant `new Date()` returns. -/
def analyzeTimestamp (jsParseDate : String → JSDate) (nowDay : ℤ) (nowMs : ℕ)
    (si : SchedulingInfo) : ℤ × ℕ :=
  let date : JSDate :=
    match si.detected_date with
    | some s => jsParseDate s
    | none => .valid nowDay nowMs
  let date : JSDate :=
    match si.detected_time with
    | some ts => setHours date (parseTimeString ts).1 (parseTimeString ts).2
    | none => date
  match date with
  | .invalid => (nowDay, nowMs)
  | .valid d ms => (d, ms)

/-! ## Create-or-update reconciliation (`TextInput.analyzeTextAndHandleReminder`)

Per trigger the code runs (ImageInput.tsx lines 458-473):
`if (createdReminderId) success = await updateReminder(createdReminderId, data)
 else success = await createReminder(data);
 if (success && response.data && response.data.id) setCreatedReminderId(response.data.id)`
where `response` is the `/analyze/text` response, whose documented shape
`{ analysis, scheduling_info }` carries no `id` field. -/

/-- The reminder call issued by one trigger of the text workflow. -/
inductive ReminderCall
  | create
  | update (id : ℕ)
  deriving Repr, DecidableEq

/-- One trigger of the reconciliation logic: given the locally
remembered id and the `id` field of the `/analyze/text` response
(`respId`), choose the call, and update the remembered id when the
call succeeded and the analyze response carried an id. -/
def reminderReconcileStep (createdReminderId : Option ℕ) (respId : Option ℕ)
    (success : Bool) : ReminderCall × Option ℕ :=
  let call : ReminderCall :=
    match createdReminderId with
    | some i => .update i
    | none => .create
  let newId : Option ℕ :=
    if success then
      match respId with
      | some i => some i
      | none => createdReminderId
    else createdReminderId
  (call, newId)

/-- Fold the reconciliation over a sequence of triggers, each given by
the analyze response's `id` field and whether the reminder call
succeeded; returns the calls issued (in order) and the final
remembered id. -/
def reminderReconcileRun (createdReminderId : Option ℕ)
    (triggers : List (Option ℕ × Bool)) : List ReminderCall × Option ℕ :=
  match triggers with
  | [] => ([], createdReminderId)
  | (respId, success) :: rest =>
      let step := reminderReconcileStep createdReminderId respId success
      let tail := reminderReconcileRun step.2 rest
      (step.1 :: tail.1, tail.2)

/-! ## Session state and logout (`AuthContext`, `App.ProtectedRoute`) -/

/-- The browser local-storage keys the client uses: the bearer token
and the serialized user profile. -/
structure StoredSession where
  token : Option String
  user : Option String
  deriving Repr, DecidableEq

/-- Client authentication state: persisted storage, the in-memory user
(modelled by its serialization), and the default Authorization
header. -/
structure AuthState where
  storage : StoredSession
  user : Option String
  authHeader : Option String
  deriving Repr, DecidableEq

/-- The operation `AuthProvider.logout`: remove `token` and `user` from local storage,
delete the default Authorization header, and set the in-memory user to
null. -/
def logout (_s : AuthState) : AuthState :=
  { storage := { token := none, user := none }, user := none, authHeader := none }

/-- Authentication predicate, `isAuthenticated: !!user`. -/
def isAuthenticated (s : AuthState) : Bool :=
  s.user.isSome

/-- What a route component renders. -/
inductive RouteView
  | spinner
  | content
  | redirectLogin
  deriving Repr, DecidableEq

/-- The component `ProtectedRoute`: spinner while loading, the children when
authenticated, otherwise `<Navigate to="/login" replace />`. -/
def protectedRoute (loading : Bool) (isAuth : Bool) : RouteView :=
  if loading then .spinner
  else if isAuth then .content
  else .redirectLogin

/-! ## Reminder CRUD operations (`ReminderContext`) -/

/-- Outcome of an awaited API call: the parsed response body, or an
error with the backend's optional `detail` message. -/
inductive ApiResult (α : Type)
  | ok (val : α)
  | err (detail : Option String)
  deriving Repr, DecidableEq

/-- Observable outcome of one CRUD operation: its returned boolean, the
cached collection afterwards, the toast shown, and how many HTTP
requests it issued. -/
structure OpOutcome where
  success : Bool
  reminders : List Reminder
  toast : Option String
  apiCalls : ℕ
  deriving Repr, DecidableEq

/-- The operation `ReminderProvider.createReminder`: POST `/reminders`; on success
append the response record and return true; on failure toast the
backend detail (or the generic fallback) and return false. -/
def createReminderOp (rs : List Reminder) (resp : ApiResult Reminder) : OpOutcome :=
  match resp with
  | .ok r => ⟨true, rs ++ [r], some "Reminder created successfully!", 1⟩
  | .err d => ⟨false, rs, some (d.getD "Failed to create reminder"), 1⟩

/-- The operation `ReminderProvider.updateReminder`: PUT `/reminders/{id}`; on success
replace the matching record with the response and return true. -/
def updateReminderOp (rs : List Reminder) (id : ℕ) (resp : ApiResult Reminder) : OpOutcome :=
  match resp with
  | .ok u => ⟨true, rs.map fun r => if r.id = id then u else r,
      some "Reminder updated successfully!", 1⟩
  | .err d => ⟨false, rs, some (d.getD "Failed to update reminder"), 1⟩

/-- The operation `ReminderProvider.deleteReminder`: DELETE `/reminders/{id}`; on
success drop the matching record and return true. -/
def deleteReminderOp (rs : List Reminder) (id : ℕ) (resp : ApiResult Unit) : OpOutcome :=
  match resp with
  | .ok _ => ⟨true, rs.filter fun r => r.id ≠ id,
      some "Reminder deleted successfully!", 1⟩
  | .err d => ⟨false, rs, some (d.getD "Failed to delete reminder"), 1⟩

/-- The status-toggle endpoint chosen by `markCompleted`. -/
inductive CompleteEndpoint
  | complete
  | uncomplete
  deriving Repr, DecidableEq

/-- Observable outcome of `markCompleted`: returned boolean, collection
afterwards, toast, and which toggle endpoint (if any) was called. -/
structure MarkOutcome where
  success : Bool
  reminders : List Reminder
  toast : Option String
  request : Option CompleteEndpoint
  deriving Repr, DecidableEq

/-- The operation `ReminderProvider.markCompleted`: look the id up in the cached
collection; absent ids return false immediately with no request; the
endpoint is `/uncomplete` when the cached record is completed and
`/complete` otherwise; failures toast a fixed generic message. -/
def markCompletedOp (rs : List Reminder) (id : ℕ) (resp : ApiResult Reminder) : MarkOutcome :=
  match rs.find? (fun r => r.id = id) with
  | none => ⟨false, rs, none, none⟩
  | some r =>
      let ep : CompleteEndpoint := if r.is_completed then .uncomplete else .complete
      match resp with
      | .ok u => ⟨true, rs.map (fun x => if x.id = id then u else x),
          some (if u.is_completed then "Reminder marked as completed!"
                else "Reminder marked as uncompleted!"), some ep⟩
      | .err _ => ⟨false, rs, some "Failed to update reminder status", some ep⟩

/-! # Theorems -/

/-- Claim C1, counterexample: the claim states that a reminder
create/update call is issued only when the suggestion's confidence is
greater than 0.3, uniformly across the text, voice and image paths.
On the text path a suggestion with confidence 1/5 ≤ 3/10 nevertheless
issues the call, refuting the claim at this input. -/
theorem C1_counterexample :
    textIssuesReminderCall (some ⟨none, none, none, 1/5⟩) = true ∧
    (1/5 : ℚ) ≤ 3/10 := by
  constructor
  · simp only [textIssuesReminderCall, decide_eq_true_eq]
    norm_num
  · norm_num

/-- Claim C1, amended: the voice and image paths gate on
`confidence > 0.3`; the text path instead issues its create/update
call for every present suggestion with `confidence ≥ 0` (hence for
every confidence in the documented range), so the 0.3 gate does not
apply to the text path; with no suggestion present no path issues a
call. -/
theorem C1_gating (s : SchedulingInfo) (h : 0 ≤ s.confidence) :
    textIssuesReminderCall (some s) = true ∧
    (voiceIssuesReminderCall (some s) = true ↔ 3/10 < s.confidence) ∧
    (imageIssuesSchedulingCall (some s) = true ↔ 3/10 < s.confidence) ∧
    textIssuesReminderCall none = false ∧
    voiceIssuesReminderCall none = false ∧
    imageIssuesSchedulingCall none = false := by
  refine ⟨?_, ?_, ?_, rfl, rfl, rfl⟩
  · simpa [textIssuesReminderCall] using h
  · simp [voiceIssuesReminderCall]
  · simp [imageIssuesSchedulingCall]

/-- Claim C1, witness for the amended theorem at confidence 1/2. -/
theorem C1_gating_witness :
    textIssuesReminderCall (some ⟨none, none, none, 1/2⟩) = true :=
  (C1_gating ⟨none, none, none, 1/2⟩ (by norm_num)).1

/-- Claim C5: evaluated at the failing input — two successive
successful triggers whose `/analyze/text` responses carry no `id`
field (the documented response shape) — the reconciliation issues two
create calls and never remembers an identifier, so a second reminder
record is created instead of updating the first. -/
theorem C5_repeated_creation :
    reminderReconcileRun none [(none, true), (none, true)] =
      ([ReminderCall.create, ReminderCall.create], none) := by
  rfl

/-- Claim C6: evaluated 3661 seconds (3661000 ms) before the scheduled
instant the countdown renders `01:01:01 left`, and at or after the
scheduled instant it renders `Due!`. -/
theorem C6_countdown (nowMs targetMs : ℤ) :
    (targetMs - nowMs = 3661000 → getCountdown nowMs targetMs = "01:01:01 left") ∧
    (targetMs ≤ nowMs → getCountdown nowMs targetMs = "Due!") := by
  constructor
  · intro h
    simp only [getCountdown, h]
    rfl
  · intro h
    simp only [getCountdown]
    rw [if_pos (by omega)]

/-- Claim C6, witness: concrete instants 3661 seconds apart, and a due
instant. -/
theorem C6_countdown_witness :
    getCountdown 1000 3662000 = "01:01:01 left" ∧ getCountdown 7 7 = "Due!" :=
  ⟨(C6_countdown 1000 3662000).1 (by norm_num), (C6_countdown 7 7).2 (by norm_num)⟩

/-- Claim C8: logout removes the stored token and cached user profile
from local storage and clears the in-memory user, so the session is
unauthenticated and a protected route (once loading has finished)
redirects to the login view. -/
theorem C8_logout (s : AuthState) :
    (logout s).storage.token = none ∧
    (logout s).storage.user = none ∧
    (logout s).user = none ∧
    isAuthenticated (logout s) = false ∧
    protectedRoute false (isAuthenticated (logout s)) = RouteView.redirectLogin :=
  ⟨rfl, rfl, rfl, rfl, rfl⟩

/-- Invariant of the debounced workflow: every automatically sent
buffer exceeded 10 characters, and any pending timer carries the
current buffer, which exceeds 10 characters. -/
def DebInv (σ : DebounceState) : Prop :=
  (∀ t ∈ σ.autoSent, 10 < t.length) ∧
  (∀ t, σ.timer = some t → 10 < t.length ∧ t = σ.text)

lemma debInv_init : DebInv debInit := by
  constructor
  · intro t ht
    simp [debInit] at ht
  · intro t ht
    simp [debInit] at ht

lemma debInv_step (σ : DebounceState) (e : DebEvent) (h : DebInv σ) :
    DebInv (debStep σ e) := by
  obtain ⟨h1, h2⟩ := h
  cases e with
  | edit s =>
      refine ⟨h1, ?_⟩
      intro t ht
      simp only [debStep] at ht ⊢
      by_cases hs : 10 < s.length
      · simp only [if_pos hs, Option.some.injEq] at ht
        exact ⟨ht ▸ hs, ht.symm⟩
      · simp [if_neg hs] at ht
  | fire =>
      cases htm : σ.timer with
      | none =>
          simpa only [debStep, htm] using ⟨h1, h2⟩
      | some t =>
          obtain ⟨htlen, -⟩ := h2 t htm
          constructor
          · intro u hu
            simp only [debStep, htm] at hu
            by_cases htr : t.trim = ""
            · rw [if_pos htr] at hu
              exact h1 u hu
            · rw [if_neg htr] at hu
              rcases List.mem_cons.mp hu with h | h
              · exact h ▸ htlen
              · exact h1 u h
          · intro u hu
            simp [debStep, htm] at hu
  | analyzeNow =>
      constructor
      · intro u hu
        simp only [debStep] at hu
        exact h1 u hu
      · intro u hu
        simp [debStep] at hu

lemma debInv_run (es : List DebEvent) (σ : DebounceState) (h : DebInv σ) :
    DebInv (debRunFrom σ es) := by
  induction es generalizing σ with
  | nil => exact h
  | cons e es ih => exact ih _ (debInv_step σ e h)

/-- Claim C2: over any event sequence, every automatically analyzed
buffer exceeded 10 characters, and whenever the buffer is at most 10
characters no delayed analysis is pending — so a buffer of at most 10
characters never schedules nor receives an automatic analysis call. -/
theorem C2_short_buffer_never_auto_analyzed (es : List DebEvent) :
    (∀ t ∈ (debRun es).autoSent, 10 < t.length) ∧
    ((debRun es).text.length ≤ 10 → (debRun es).timer = none) := by
  have h := debInv_run es debInit debInv_init
  simp only [debRun]
  refine ⟨h.1, ?_⟩
  intro hlen
  cases htm : (debRunFrom debInit es).timer with
  | none => rfl
  | some t =>
      obtain ⟨htlen, hteq⟩ := h.2 t htm
      rw [hteq] at htlen
      omega

/-- Claim C2, witness: after typing a long buffer, letting the timer
fire, then editing down to a short buffer, no timer is pending. -/
theorem C2_witness :
    (debRun [DebEvent.edit "hello world!", DebEvent.fire, DebEvent.edit "hi"]).timer
      = none :=
  (C2_short_buffer_never_auto_analyzed
    [DebEvent.edit "hello world!", DebEvent.fire, DebEvent.edit "hi"]).2 (by decide)

lemma debRunFrom_edits (ss : List String) (σ : DebounceState) :
    (debRunFrom σ (ss.map DebEvent.edit)).autoSent = σ.autoSent ∧
    (debRunFrom σ (ss.map DebEvent.edit)).manualSent = σ.manualSent := by
  induction ss generalizing σ with
  | nil => exact ⟨rfl, rfl⟩
  | cons s ss ih =>
      simpa only [List.map_cons, debRunFrom, List.foldl_cons, debStep]
        using ih { σ with text := s, timer := if 10 < s.length then some s else none }

/-- Claim C3: for any edit sequence entirely inside the quiet period
(no timer firing between edits), the single eventual firing analyzes
at most the final edit's buffer — exactly the final buffer when it
exceeds 10 characters and is not all-whitespace, and nothing otherwise
— and the explicit analyze-now action cancels any pending delayed
trigger and analyzes the current buffer immediately. -/
theorem C3_last_edit_wins (σ : DebounceState) (ss : List String) (t : String) :
    (debRunFrom σ (ss.map DebEvent.edit ++ [DebEvent.edit t, DebEvent.fire])).autoSent =
      (if 10 < t.length ∧ ¬ t.trim = "" then t :: σ.autoSent else σ.autoSent) ∧
    (debStep σ DebEvent.analyzeNow).timer = none ∧
    (debStep σ DebEvent.analyzeNow).manualSent =
      (if σ.text.trim = "" then σ.manualSent else σ.text :: σ.manualSent) := by
  refine ⟨?_, rfl, rfl⟩
  have hsplit :
      debRunFrom σ (ss.map DebEvent.edit ++ [DebEvent.edit t, DebEvent.fire]) =
        debRunFrom (debRunFrom σ (ss.map DebEvent.edit)) [DebEvent.edit t, DebEvent.fire] := by
    simp [debRunFrom, List.foldl_append]
  rw [hsplit]
  set σ₁ := debRunFrom σ (ss.map DebEvent.edit) with hσ₁
  have hauto : σ₁.autoSent = σ.autoSent := (debRunFrom_edits ss σ).1
  by_cases hl : 10 < t.length
  · by_cases htr : t.trim = ""
    · simp [debRunFrom, debStep, if_pos hl, htr, hauto]
    · simp [debRunFrom, debStep, if_pos hl, htr, hauto]
  · simp [debRunFrom, debStep, if_neg hl, hl, hauto]

/-- Claim C4, counterexample: the claim states the combined timestamp
defaults to the current instant whenever the date/time fields are
absent or unparseable.  With the date field absent and the time field
the digit-free string `soon`, at a current instant of day 0 at
45000000 ms (12:30), the code yields midnight of day 0 — not the
current instant. -/
theorem C4_counterexample :
    analyzeTimestamp (fun _ => JSDate.invalid) 0 45000000
        ⟨none, some "soon", none, 1⟩ = (0, 0) ∧
    ((0 : ℤ), (0 : ℕ)) ≠ ((0 : ℤ), (45000000 : ℕ)) := by
  exact ⟨rfl, by decide⟩

/-- Claim C4, amended: the client combines the detected date and time
into one timestamp; the timestamp is the current instant when both
fields are absent, and also whenever the date field is present but
does not parse; when only the date field is absent, the result is the
current day with the time-of-day extracted by `parseTimeString`
(midnight when the string holds no digit), not the current instant. -/
theorem C4_timestamp_combination (p : String → JSDate) (nowDay : ℤ) (nowMs : ℕ)
    (si : SchedulingInfo) :
    (si.detected_date = none → si.detected_time = none →
      analyzeTimestamp p nowDay nowMs si = (nowDay, nowMs)) ∧
    (∀ s, si.detected_date = some s → p s = JSDate.invalid →
      analyzeTimestamp p nowDay nowMs si = (nowDay, nowMs)) ∧
    (∀ ts, si.detected_date = none → si.detected_time = some ts →
      analyzeTimestamp p nowDay nowMs si =
        (nowDay + ((((parseTimeString ts).1 * 60 + (parseTimeString ts).2) * 60000
            / 86400000 : ℕ) : ℤ),
          ((parseTimeString ts).1 * 60 + (parseTimeString ts).2) * 60000 % 86400000)) := by
  refine ⟨?_, ?_, ?_⟩
  · intro hd ht
    simp [analyzeTimestamp, hd, ht]
  · intro s hd hp
    cases ht : si.detected_time with
    | none => simp [analyzeTimestamp, hd, hp, ht]
    | some ts => simp [analyzeTimestamp, hd, hp, ht, setHours]
  · intro ts hd ht
    simp [analyzeTimestamp, hd, ht, setHours]

/-- Claim C4, witness: both fields absent yields the current instant. -/
theorem C4_witness :
    analyzeTimestamp (fun _ => JSDate.invalid) 5 77 ⟨none, none, none, 1⟩ = (5, 77) :=
  (C4_timestamp_combination (fun _ => JSDate.invalid) 5 77 ⟨none, none, none, 1⟩).1
    rfl rfl

/-- Claim C7: the `upcoming` filter's output holds no completed
reminder and none scheduled at or before the current instant, and the
`completed` filter's output holds exactly the completed reminders,
regardless of their scheduled date. -/
theorem C7_filters (rs : List Reminder) (nowMs : ℤ) :
    (∀ r ∈ filterReminders RFilter.upcoming nowMs rs,
      r.is_completed = false ∧ nowMs < r.scheduled_for) ∧
    (∀ r, r ∈ filterReminders RFilter.completed nowMs rs ↔
      r ∈ rs ∧ r.is_completed = true) := by
  constructor
  · intro r hr
    simp only [filterReminders, List.mem_filter, Bool.and_eq_true, Bool.not_eq_true',
      decide_eq_true_eq] at hr
    exact ⟨hr.2.1, hr.2.2⟩
  · intro r
    simp [filterReminders, List.mem_filter]

/-- Claim C7, witness: a completed reminder scheduled in the past is in
the `completed` filter's output. -/
theorem C7_witness :
    (⟨1, "t", none, -100, 0, true, false⟩ : Reminder) ∈
      filterReminders RFilter.completed 0 [⟨1, "t", none, -100, 0, true, false⟩] :=
  ((C7_filters [⟨1, "t", none, -100, 0, true, false⟩] 0).2
    ⟨1, "t", none, -100, 0, true, false⟩).mpr ⟨by simp, rfl⟩

/-- Claim C9: when the API call fails, each CRUD operation returns
false, leaves the cached collection exactly as it was, shows a toast
with the backend `detail` or the operation's generic fallback (the
status toggle always its generic message), and issues exactly the one
failed request, never a retry. -/
theorem C9_crud_failure (rs : List Reminder) (id : ℕ) (d : Option String)
    (r : Reminder) (hfound : rs.find? (fun x => x.id = id) = some r) :
    createReminderOp rs (ApiResult.err d) =
      ⟨false, rs, some (d.getD "Failed to create reminder"), 1⟩ ∧
    updateReminderOp rs id (ApiResult.err d) =
      ⟨false, rs, some (d.getD "Failed to update reminder"), 1⟩ ∧
    deleteReminderOp rs id (ApiResult.err d) =
      ⟨false, rs, some (d.getD "Failed to delete reminder"), 1⟩ ∧
    markCompletedOp rs id (ApiResult.err d) =
      ⟨false, rs, some "Failed to update reminder status",
        some (if r.is_completed then CompleteEndpoint.uncomplete
              else CompleteEndpoint.complete)⟩ := by
  refine ⟨rfl, rfl, rfl, ?_⟩
  simp [markCompletedOp, hfound]

/-- Claim C9, witness: a failing create call with a backend detail
message at a one-element cached collection. -/
theorem C9_witness :
    createReminderOp [⟨1, "t", none, 0, 0, false, false⟩] (ApiResult.err (some "boom")) =
      ⟨false, [⟨1, "t", none, 0, 0, false, false⟩],
        some ((some "boom").getD "Failed to create reminder"), 1⟩ :=
  (C9_crud_failure [⟨1, "t", none, 0, 0, false, false⟩] 1 (some "boom")
    ⟨1, "t", none, 0, 0, false, false⟩ (by simp)).1

/-- Claim C10: `markCompleted` with an id absent from the cached
collection returns false with no request and no change; with a
matching id, the endpoint called is `/uncomplete` when the cached
record is completed and `/complete` otherwise. -/
theorem C10_markCompleted (rs : List Reminder) (id : ℕ) (resp : ApiResult Reminder) :
    (rs.find? (fun r => r.id = id) = none →
      markCompletedOp rs id resp = ⟨false, rs, none, none⟩) ∧
    (∀ r, rs.find? (fun r => r.id = id) = some r →
      (markCompletedOp rs id resp).request =
        some (if r.is_completed then CompleteEndpoint.uncomplete
              else CompleteEndpoint.complete)) := by
  constructor
  · intro h
    simp [markCompletedOp, h]
  · intro r h
    cases resp with
    | ok u => simp [markCompletedOp, h]
    | err d => simp [markCompletedOp, h]

/-- Claim C10, witness: an empty cached collection yields false with no
request issued. -/
theorem C10_witness :
    markCompletedOp [] 5 (ApiResult.err none) = ⟨false, [], none, none⟩ :=
  (C10_markCompleted [] 5 (ApiResult.err none)).1 (by simp)

end SpeakNote
